import Mathlib

/-!
Verification of the Janus-Weather school-delay prediction engine.

The development shallowly embeds the prediction core of the repository:
`api/_lib/schoolDelay.js` (heuristic scorer, historical similarity matcher,
probability blender/splitter), `api/_lib/weatherLogger.js` (historical-record
logging, prediction-log resolution, accuracy reporting) and the backtest
seeding script (`simulateProbability`).

Modelling conventions:
* JavaScript numbers are modelled as exact rationals (`ℚ`); `Math.round` is
  `jsRound` (round half toward positive infinity, JS semantics on the
  non-negative values arising here); `Math.min`/`Math.max` are `min`/`max`.
* `Math.pow(windMph, 0.16)` is transcendental; its value is passed in as an
  explicit parameter `pow016` and universally quantified in every theorem.
* JS strings are Lean `String`s; `toLowerCase` is `jsToLower`, `includes` is
  `jsIncludes`; the snow-amount regex is implemented as `parseSnowAmount`.
* `null`/`undefined` become `Option`; JS truthiness (`x || d`) is modelled by
  the `numOr` / `descOf` helpers that also treat `0` and `""` as falsy, and
  nullish coalescing (`?? d`) by `Option.getD`.
* `Array.prototype.sort` with comparator `(a, b) => b.similarity - a.similarity`
  is a stable descending sort; it is modelled by the stable insertion sort
  `sortDesc` (any two stable sorts of the same keyed list agree).
-/

set_option allowUnsafeReducibility true in
attribute [semireducible] Rat.add Rat.mul Rat.sub Rat.inv Rat.div Rat.neg Rat.ofScientific

namespace Janus

/-- JS `Math.round` on the non-negative rationals used by the model:
round half away from zero, i.e. `⌊q + 1/2⌋`. -/
def jsRound (q : ℚ) : ℚ := ((⌊q + 1/2⌋ : ℤ) : ℚ)

/-- JS `String.prototype.toLowerCase` (ASCII, which covers all strings the
code compares against). -/
def jsToLower (s : String) : String := ⟨s.data.map Char.toLower⟩

/-- `leadsWith pat cs` holds when `pat` is an initial segment of `cs`. -/
def leadsWith : List Char → List Char → Bool
  | [], _ => true
  | _ :: _, [] => false
  | p :: ps, c :: cs => p == c && leadsWith ps cs

/-- `containsSeq hay pat`: `pat` occurs contiguously inside `hay`. -/
def containsSeq : List Char → List Char → Bool
  | [], pat => pat.isEmpty
  | h :: t, pat => leadsWith pat (h :: t) || containsSeq t pat

/-- JS `String.prototype.includes`. -/
def jsIncludes (hay needle : String) : Bool := containsSeq hay.toList needle.toList

/-- `o || ''` for a possibly-null string. -/
def strOrEmpty (o : Option String) : String := o.getD ""

/-- JS truthiness of a possibly-null string (null and `""` are falsy). -/
def strTruthy (o : Option String) : Bool :=
  match o with
  | none => false
  | some s => !(s == "")

/-- `period.detailedForecast || period.shortForecast || ''`. -/
def descOf (detailed short : Option String) : String :=
  if strTruthy detailed then detailed.getD ""
  else if strTruthy short then short.getD ""
  else ""

/-- JS truthiness of a possibly-null number (null and `0` are falsy). -/
def numTruthy (o : Option ℚ) : Bool :=
  match o with
  | none => false
  | some q => !(q == 0)

/-- `o || d` for a possibly-null number: `0` falls through to the default. -/
def numOr (o : Option ℚ) (d : ℚ) : ℚ :=
  if numTruthy o then o.getD 0 else d

/-- JS `\s` whitespace (the characters occurring in forecast prose). -/
def isSpaceChar (c : Char) : Bool := c == ' ' || c == '\t' || c == '\n' || c == '\r'

/-- Value of a non-empty digit string (`parseInt` on a `\d+` capture). -/
def digitsToNat (ds : List Char) : ℕ :=
  ds.foldl (fun n c => 10 * n + (c.toNat - '0'.toNat)) 0

/-- Parse a maximal run `\d+`; `none` when the input does not start with a digit. -/
def takeDigits (cs : List Char) : Option (ℕ × List Char) :=
  let ds := cs.takeWhile Char.isDigit
  if ds.isEmpty then none else some (digitsToNat ds, cs.dropWhile Char.isDigit)

/-- Skip `\s*`. -/
def skipSpaces (cs : List Char) : List Char := cs.dropWhile isSpaceChar

/-- Try to match the regex `(\d+)\s*(?:to\s*(\d+))?\s*inch` anchored at the
start of `cs`; returns the amount the code extracts (`snowMatch[2]` when the
range group matched, else `snowMatch[1]`). -/
def matchInchAt (cs : List Char) : Option ℕ :=
  match takeDigits cs with
  | none => none
  | some (d1, rest1) =>
    let rest2 := skipSpaces rest1
    let noGroup : Option ℕ :=
      if leadsWith ['i', 'n', 'c', 'h'] rest2 then some d1 else none
    if leadsWith ['t', 'o'] rest2 then
      match takeDigits (skipSpaces (rest2.drop 2)) with
      | some (d2, rest4) =>
        if leadsWith ['i', 'n', 'c', 'h'] (skipSpaces rest4) then some d2 else noGroup
      | none => noGroup
    else noGroup

/-- Leftmost match of the snow-amount regex over a character list. -/
def findInchMatch : List Char → Option ℕ
  | [] => none
  | c :: rest =>
    match matchInchAt (c :: rest) with
    | some n => some n
    | none => findInchMatch rest

/-- `text.match(/(\d+)\s*(?:to\s*(\d+))?\s*inch/)`, reduced to the snow amount
the code reads off the match (upper bound of a range, else the single value). -/
def parseSnowAmount (s : String) : Option ℕ := findInchMatch s.toList

/-- `categorizeEvent(snow, type)` from `schoolDelay.js`: bucket a weather event
by snowfall and free-text type. -/
def categorizeEvent (snow : ℚ) (type : Option String) : String :=
  let typeLower := jsToLower (strOrEmpty type)
  if jsIncludes typeLower "ice" || jsIncludes typeLower "freezing" then "ice"
  else if 3 ≤ snow then "heavy-snow"
  else if 1 ≤ snow then "light-snow"
  else if jsIncludes typeLower "snow" || jsIncludes typeLower "flurr" then "light-snow"
  else "cold-only"

/-- The category bucket rule as the specification words it: ice wins; else
heavy-snow at 3 inches; else light-snow at 1 inch or on a snow/flurries
mention; otherwise cold-only. -/
def categorizeSpec (snow : ℚ) (type : Option String) : String :=
  let typeLower := jsToLower (strOrEmpty type)
  if jsIncludes typeLower "ice" || jsIncludes typeLower "freezing" then "ice"
  else if 3 ≤ snow then "heavy-snow"
  else if 1 ≤ snow ∨ (jsIncludes typeLower "snow" || jsIncludes typeLower "flurr") then
    "light-snow"
  else "cold-only"

/-- A row of `historicalData.json`: one (school, date) outcome with the
weather metrics stored for it. -/
structure HistoricalRecord where
  school : String
  date : String
  status : String
  temperature : ℚ
  feelsLike : ℚ
  snowfall : ℚ
  type : Option String
  deriving DecidableEq

/-- A historical record decorated by the similarity scorer
(`{ ...record, similarity, disqualified }`). -/
structure ScoredRecord where
  record : HistoricalRecord
  similarity : ℤ
  disqualified : Bool
  deriving DecidableEq

/-- The per-record similarity scorer shared by `getHistoricalPrediction` and
`getSchoolHistoricalPrediction`: disqualify on a snowfall gap above 5 inches,
else sum category, temperature, feels-like, snowfall and type points. -/
def scoreRecord (temperature feelsLike snowfall : ℚ) (weatherType : Option String)
    (r : HistoricalRecord) : ScoredRecord :=
  let currentCategory := categorizeEvent snowfall weatherType
  let recordCategory := categorizeEvent r.snowfall r.type
  let snowDiff := |r.snowfall - snowfall|
  if 5 < snowDiff then ⟨r, 0, true⟩
  else
    let categoryPts : ℤ :=
      if currentCategory = recordCategory then 4
      else if (currentCategory = "cold-only" ∧ recordCategory = "heavy-snow")
          ∨ (currentCategory = "heavy-snow" ∧ recordCategory = "cold-only") then -6
      else -2
    let tempDiff := |r.temperature - temperature|
    let tempPts : ℤ := if tempDiff ≤ 5 then 3 else if tempDiff ≤ 10 then 2
      else if tempDiff ≤ 15 then 1 else 0
    let feelsDiff := |r.feelsLike - feelsLike|
    let feelsPts : ℤ := if feelsDiff ≤ 5 then 3 else if feelsDiff ≤ 10 then 2
      else if feelsDiff ≤ 15 then 1 else 0
    let snowPts : ℤ := if snowDiff ≤ 1/2 then 4 else if snowDiff ≤ 1 then 3
      else if snowDiff ≤ 2 then 2 else if snowDiff ≤ 3 then 1 else 0
    let currentType := jsToLower (strOrEmpty weatherType)
    let recordType := jsToLower (strOrEmpty r.type)
    let typePts : ℤ :=
      if currentType ≠ "" ∧ recordType ≠ "" ∧ currentType = recordType then 2
      else if currentType ≠ "" ∧ recordType ≠ ""
          ∧ (jsIncludes currentType recordType || jsIncludes recordType currentType) then 1
      else 0
    ⟨r, categoryPts + tempPts + feelsPts + snowPts + typePts, false⟩

/-- Stable descending insertion by an integer key: `x` goes in front of the
first element whose key is not larger, so equal keys keep their input order. -/
def insertDesc {α : Type} (key : α → ℤ) (x : α) : List α → List α
  | [] => [x]
  | y :: ys => if key x < key y then y :: insertDesc key x ys else x :: y :: ys

/-- Stable descending sort by an integer key; models the JS
`.sort((a, b) => b.similarity - a.similarity)` (a stable sort). -/
def sortDesc {α : Type} (key : α → ℤ) : List α → List α
  | [] => []
  | x :: xs => insertDesc key x (sortDesc key xs)

/-- Scored, qualified, sufficiently-similar candidates, best first
(`scored.filter(r => !r.disqualified && r.similarity >= 5).sort(...)`). -/
def similarRecords (historicalData : List HistoricalRecord)
    (temperature feelsLike snowfall : ℚ) (weatherType : Option String) : List ScoredRecord :=
  sortDesc (fun r => r.similarity)
    ((historicalData.map (scoreRecord temperature feelsLike snowfall weatherType)).filter
      (fun r => !r.disqualified && 5 ≤ r.similarity))

/-- The retained matches of the global matcher: top 8 similar records. -/
def historicalMatches (historicalData : List HistoricalRecord)
    (temperature feelsLike snowfall : ℚ) (weatherType : Option String) : List ScoredRecord :=
  (similarRecords historicalData temperature feelsLike snowfall weatherType).take 8

/-- Aggregate outcome statistics over the retained matches. -/
structure HistoricalAggregate where
  matchCount : ℕ
  closedCount : ℕ
  delayCount : ℕ
  disruptionRate : ℚ
  closureRate : ℚ
  delayRate : ℚ
  deriving DecidableEq

/-- Outcome rates over a list of retained matches (shared aggregate step of
both matchers). -/
def aggregateOf (retained : List ScoredRecord) : HistoricalAggregate :=
  let closedCount := (retained.filter (fun r => r.record.status == "closed")).length
  let delayCount := (retained.filter (fun r => r.record.status == "delay")).length
  let totalDisruptions := closedCount + delayCount
  { matchCount := retained.length
    closedCount := closedCount
    delayCount := delayCount
    disruptionRate := jsRound (((totalDisruptions : ℚ) / (retained.length : ℚ)) * 100)
    closureRate := jsRound (((closedCount : ℚ) / (retained.length : ℚ)) * 100)
    delayRate := jsRound (((delayCount : ℚ) / (retained.length : ℚ)) * 100) }

/-- `getHistoricalPrediction` of `schoolDelay.js`, with the module-level
`historicalData` passed explicitly: find similar past days and return their
outcome rates, or `none` when no record qualifies. -/
def getHistoricalPrediction (historicalData : List HistoricalRecord)
    (temperature feelsLike snowfall : ℚ) (weatherType : Option String) :
    Option HistoricalAggregate :=
  if historicalData = [] then none
  else
    let similar := similarRecords historicalData temperature feelsLike snowfall weatherType
    if similar = [] then none
    else some (aggregateOf (similar.take 8))

/-- `getSchoolHistoricalPrediction`: the same matcher over the records of one
school, keeping up to 5 matches. -/
def getSchoolHistoricalPrediction (historicalData : List HistoricalRecord)
    (schoolName : String) (temperature feelsLike snowfall : ℚ)
    (weatherType : Option String) : Option HistoricalAggregate :=
  if historicalData = [] then none
  else
    let schoolData := historicalData.filter (fun r => r.school == schoolName)
    if schoolData = [] then none
    else
      let similar := similarRecords schoolData temperature feelsLike snowfall weatherType
      if similar = [] then none
      else some (aggregateOf (similar.take 5))

/-- An NWS alert as consumed by the scorer (`{event, severity}`). -/
structure Alert where
  event : Option String
  severity : Option String
  deriving DecidableEq

/-- One forecast period (`{detailedForecast, shortForecast}`). -/
structure Period where
  detailedForecast : Option String
  shortForecast : Option String
  deriving DecidableEq

/-- Current observation: the `fahrenheit` value of the temperature object when
present, and the `windSpeed.mph` value when present. -/
structure CurrentConditions where
  temperature : Option ℚ
  windMph : Option ℚ
  deriving DecidableEq

/-- Points contributed by one winter alert, by severity. -/
def severityPoints (a : Alert) : ℚ :=
  let s := jsToLower (strOrEmpty a.severity)
  if s = "extreme" then 50
  else if s = "severe" then 40
  else if s = "moderate" then 25
  else 15

/-- The winter-alert filter of the scorer. -/
def isWinterAlert (a : Alert) : Bool :=
  let e := jsToLower (strOrEmpty a.event)
  jsIncludes e "winter" || jsIncludes e "snow" || jsIncludes e "ice"
    || jsIncludes e "blizzard" || jsIncludes e "freeze" || jsIncludes e "cold"

/-- Total alert contribution: each matching winter alert adds its severity
points. -/
def alertPoints (alerts : List Alert) : ℚ :=
  (alerts.filter isWinterAlert).foldl (fun acc a => acc + severityPoints a) 0

/-- Wind chill as computed inline by `calculateDelayProbability`: the NWS
empirical formula, rounded, when `tempF ≤ 50` and wind exceeds 3 mph, else the
plain temperature. `pow016` stands for the transcendental
`Math.pow(windMph, 0.16)`. -/
def windChillOf (pow016 tempF windMph : ℚ) : ℚ :=
  if tempF ≤ 50 ∧ 3 < windMph then
    jsRound (35.74 + 0.6215 * tempF - 35.75 * pow016 + 0.4275 * tempF * pow016)
  else tempF

/-- Temperature/wind-chill contribution of the current conditions. -/
def tempPoints (pow016 : ℚ) (cc : Option CurrentConditions) : ℚ :=
  match cc with
  | none => 0
  | some c =>
    match c.temperature with
    | none => 0
    | some tempF =>
      let wc := windChillOf pow016 tempF (numOr c.windMph 0)
      if wc ≤ -10 then 40 else if wc ≤ 0 then 25 else if wc ≤ 10 then 10 else 0

/-- The lowercased prose of a period
(`(period.detailedForecast || period.shortForecast || '').toLowerCase()`). -/
def periodDesc (p : Period) : String :=
  jsToLower (descOf p.detailedForecast p.shortForecast)

/-- Points of the explicit snow-amount tier (6+/3+/1+ inches). -/
def snowTierPoints (snowMatch : Option ℕ) : ℚ :=
  match snowMatch with
  | some amt => if 6 ≤ amt then 45 else if 3 ≤ amt then 30 else if 1 ≤ amt then 15 else 0
  | none => 0

/-- The ice/freezing-rain/sleet keyword check of the period analysis. -/
def iceMentioned (desc : String) : Bool :=
  jsIncludes desc "ice" || jsIncludes desc "freezing rain" || jsIncludes desc "sleet"

/-- Contribution of one forecast period: explicit snow amount tier, ice
keywords, and a general snow mention when no explicit amount was parsed. -/
def periodPoints (desc : String) : ℚ :=
  let snowMatch := parseSnowAmount desc
  let snowPts := snowTierPoints snowMatch
  let icePts : ℚ := if iceMentioned desc then 35 else 0
  let generalSnowPts : ℚ :=
    if snowMatch = none ∧ (jsIncludes desc "snow" || jsIncludes desc "flurries") then
      if jsIncludes desc "heavy" then 25
      else if jsIncludes desc "light" || jsIncludes desc "flurries" then 5
      else 15
    else 0
  snowPts + icePts + generalSnowPts

/-- Contribution of the first four forecast periods. -/
def forecastPoints (forecast : Option (List Period)) : ℚ :=
  match forecast with
  | none => 0
  | some periods =>
    ((periods.take 4).map (fun p => periodPoints (periodDesc p))).foldl (· + ·) 0

/-- The additive heuristic severity score before historical blending:
alert points, then temperature points, then forecast points. -/
def heuristicProbability (pow016 : ℚ) (cc : Option CurrentConditions)
    (forecast : Option (List Period)) (alerts : List Alert) : ℚ :=
  alertPoints alerts + tempPoints pow016 cc + forecastPoints forecast

/-- The joined lowercased prose of the first four periods. -/
def relevantTextOf (periods : List Period) : String :=
  String.intercalate " " ((periods.take 4).map periodDesc)

/-- Snowfall estimate mined from the joined forecast prose (0 when no
explicit amount or no forecast). -/
def snowEstimateOf (forecast : Option (List Period)) : ℚ :=
  match forecast with
  | none => 0
  | some periods => (((parseSnowAmount (relevantTextOf periods)).getD 0 : ℕ) : ℚ)

/-- Weather type mined from the joined forecast prose (`''` when no forecast:
the initial value of the `weatherType` variable). -/
def weatherTypeOf (forecast : Option (List Period)) (windChill : ℚ) : String :=
  match forecast with
  | none => ""
  | some periods =>
    let text := relevantTextOf periods
    if jsIncludes text "ice" || jsIncludes text "freezing rain" then "ice"
    else if jsIncludes text "snow" then "snow"
    else if windChill ≤ 10 then "frigid temperature"
    else ""

/-- The historical pattern lookup performed inside `calculateDelayProbability`:
requires current conditions with a temperature object, derives wind chill,
snow estimate and weather type, and queries the matcher. -/
def historicalMatchOf (historicalData : List HistoricalRecord) (pow016 : ℚ)
    (cc : Option CurrentConditions) (forecast : Option (List Period)) :
    Option HistoricalAggregate :=
  match cc with
  | none => none
  | some c =>
    match c.temperature with
    | none => none
    | some tempF =>
      let wc := windChillOf pow016 tempF (numOr c.windMph 0)
      getHistoricalPrediction historicalData tempF wc (snowEstimateOf forecast)
        (some (weatherTypeOf forecast wc))

/-- The live scorer's tiered delay/closure split used when no historical
aggregate (or a zero disruption rate) is available; returns
`(closureProbability, delayProbability)`. -/
def heuristicSplit (p : ℚ) : ℚ × ℚ :=
  if 70 ≤ p then (jsRound (p * 0.6), jsRound (p * 0.4))
  else if 40 ≤ p then (jsRound (p * 0.4), jsRound (p * 0.6))
  else (jsRound (p * 0.3), jsRound (p * 0.7))

/-- The result object of `calculateDelayProbability` (display-only fields such
as `factors`, `recommendation`, `schools` and `disclaimer` are omitted). -/
structure Prediction where
  probability : ℚ
  delayProbability : ℚ
  closureProbability : ℚ
  status : String
  historicalMatch : Option HistoricalAggregate
  deriving DecidableEq

/-- `calculateDelayProbability(currentConditions, forecast, hourlyForecast,
alerts)`, with the module-level historical data and the transcendental
`Math.pow(windMph, 0.16)` passed explicitly. The unused `hourlyForecast`
parameter is kept for interface fidelity. -/
def calculateDelayProbability (historicalData : List HistoricalRecord) (pow016 : ℚ)
    (cc : Option CurrentConditions) (forecast : Option (List Period))
    (_hourlyForecast : Option Unit) (alerts : List Alert) : Prediction :=
  let heuristic := heuristicProbability pow016 cc forecast alerts
  let historicalMatch := historicalMatchOf historicalData pow016 cc forecast
  let blended :=
    match historicalMatch with
    | none => heuristic
    | some h => jsRound (heuristic * 0.6 + h.disruptionRate * 0.4)
  let probability := min blended 95
  let split :=
    match historicalMatch with
    | some h =>
      if 0 < h.disruptionRate then
        (jsRound (probability * (h.closureRate / h.disruptionRate)),
         jsRound (probability * (h.delayRate / h.disruptionRate)))
      else heuristicSplit probability
    | none => heuristicSplit probability
  let status :=
    if 70 ≤ probability then "high"
    else if 40 ≤ probability then "moderate"
    else if 15 ≤ probability then "low"
    else "minimal"
  { probability := probability
    delayProbability := split.2
    closureProbability := split.1
    status := status
    historicalMatch := historicalMatch }

/-- The backtest seeding script's five-band delay/closure split; returns
`(closureProbability, delayProbability)`. -/
def simSplit (p : ℚ) : ℚ × ℚ :=
  if 85 ≤ p then (jsRound (p * 0.65), jsRound (p * 0.35))
  else if 70 ≤ p then (jsRound (p * 0.55), jsRound (p * 0.45))
  else if 55 ≤ p then (jsRound (p * 0.45), jsRound (p * 0.55))
  else if 40 ≤ p then (jsRound (p * 0.35), jsRound (p * 0.65))
  else (jsRound (p * 0.25), jsRound (p * 0.75))

/-- `simulateProbability(record)` of the backtest seeding script: re-derives
the weather score from stored metrics, estimates the alert contribution,
clamps to [0, 95] and splits; returns
`(probability, delayProbability, closureProbability)`. -/
def simulateProbability (record : HistoricalRecord) : ℚ × ℚ × ℚ :=
  let feelsLike := record.feelsLike
  let snowfall := record.snowfall
  let type := jsToLower (strOrEmpty record.type)
  let coldPts : ℚ :=
    if feelsLike ≤ -10 then 40 else if feelsLike ≤ 0 then 25
    else if feelsLike ≤ 10 then 10 else 0
  let snowPts : ℚ :=
    if 6 ≤ snowfall then 45 else if 3 ≤ snowfall then 30
    else if 1 ≤ snowfall then 15 else 0
  let icePts : ℚ :=
    if jsIncludes type "ice" || jsIncludes type "freezing rain" then 35 else 0
  let alertEstPts : ℚ :=
    if 6 ≤ snowfall ∨ feelsLike ≤ -10 then 30
    else if 3 ≤ snowfall ∨ jsIncludes type "ice" ∨ feelsLike ≤ 0 then 20
    else if 1 ≤ snowfall ∨ feelsLike ≤ 10 ∨ jsIncludes type "frigid" then 15
    else 0
  let probability := max 0 (min (coldPts + snowPts + icePts + alertEstPts) 95)
  let split := simSplit probability
  (probability, split.2, split.1)

/-- `normalizeStatus` of `weatherLogger.js`: map a scraped status string onto
the historical-data vocabulary, or `none` (null) when it cannot be
normalized. A null or empty status is falsy and yields `none`. -/
def normalizeStatus (status : Option String) : Option String :=
  match status with
  | none => none
  | some st =>
    if st = "" then none
    else
      let s := jsToLower st
      if s = "closed" ∨ jsIncludes s "remote" then some "closed"
      else if jsIncludes s "delay" then some "delay"
      else if jsIncludes s "early dismissal" then some "early dismissal"
      else if jsIncludes s "flexible instruction" then some "flexible instruction day"
      else if s = "open" then some "open"
      else none

/-- One school-district entry of `INDIANA_COUNTY_SCHOOLS`. -/
structure School where
  name : String
  code : String
  shortName : String
  website : String
  statusUrl : String
  twitter : Option String
  deriving DecidableEq

/-- The six districts of `schoolDelay.js`. -/
def INDIANA_COUNTY_SCHOOLS : List School :=
  [⟨"Indiana Area School District", "IASD", "Indiana Area", "https://www.iasd.cc",
    "https://www.iasd.cc", some "@IndianaAreaSD"⟩,
   ⟨"Homer-Center School District", "HCSD", "Homer-Center", "https://www.homercenter.org",
    "https://www.homercenter.org", none⟩,
   ⟨"Marion Center Area School District", "MCASD", "Marion Center", "https://www.mcasd.net",
    "https://www.mcasd.net", none⟩,
   ⟨"Penns Manor Area School District", "PMASD", "Penns Manor", "https://www.pennsmanor.org",
    "https://www.pennsmanor.org", none⟩,
   ⟨"Purchase Line School District", "PLSD", "Purchase Line", "https://www.plsd.k12.pa.us",
    "https://www.plsd.k12.pa.us", none⟩,
   ⟨"United School District", "USD", "United", "https://www.unitedsd.net",
    "https://www.unitedsd.net", none⟩]

/-- `SCHOOL_CODE_TO_NAME` of `weatherLogger.js`. -/
def SCHOOL_CODE_TO_NAME : List (String × String) :=
  [("IASD", "Indiana"), ("HCSD", "Homer-Center"), ("MCASD", "Marion Center"),
   ("PMASD", "Penns Manor"), ("PLSD", "Purchase Line"), ("USD", "United")]

/-- `SCHOOL_CODE_TO_HISTORICAL_NAME` of `schoolDelay.js` (the same table). -/
def SCHOOL_CODE_TO_HISTORICAL_NAME : List (String × String) :=
  [("IASD", "Indiana"), ("HCSD", "Homer-Center"), ("MCASD", "Marion Center"),
   ("PMASD", "Penns Manor"), ("PLSD", "Purchase Line"), ("USD", "United")]

/-- `SCHOOL_CODE_TO_NAME[code]`. -/
def nameForCode (code : String) : String :=
  ((SCHOOL_CODE_TO_NAME.find? (fun p => p.1 == code)).map Prod.snd).getD ""

/-- `SCHOOL_CODE_TO_HISTORICAL_NAME[code]`. -/
def historicalNameForCode (code : String) : String :=
  ((SCHOOL_CODE_TO_HISTORICAL_NAME.find? (fun p => p.1 == code)).map Prod.snd).getD ""

/-- `Object.keys(SCHOOL_CODE_TO_NAME).find(code => SCHOOL_CODE_TO_NAME[code] ===
school)`: first code mapping to the given school name. -/
def codeForSchool (school : String) : Option String :=
  (SCHOOL_CODE_TO_NAME.find? (fun p => p.2 == school)).map Prod.fst

/-- A prediction-log entry (`predictionLog.json` row). -/
structure LogEntry where
  date : String
  school : String
  delayProbability : ℚ
  closureProbability : ℚ
  predictedDisruption : Bool
  actualStatus : Option String
  correct : Option Bool
  source : Option String
  deriving DecidableEq

/-- `schoolStatuses[codeForSchool(school)]?.status`, with the status map
modelled as a function from school code to the scraped status string. -/
def statusLookup (statuses : String → Option String) (school : String) : Option String :=
  match codeForSchool school with
  | some code => statuses code
  | none => none

/-- The per-entry body of the `resolvePredictions` loop: a pending entry dated
today whose actual status normalizes gets its `actualStatus` and `correct`
set; every other entry is left untouched. -/
def resolveEntry (statuses : String → Option String) (today : String) (e : LogEntry) :
    LogEntry :=
  if e.date = today ∧ e.actualStatus = none then
    match normalizeStatus (statusLookup statuses e.school) with
    | none => e
    | some actual =>
      { e with actualStatus := some actual
               correct := some (e.predictedDisruption == decide (actual ≠ "open")) }
  else e

/-- `resolvePredictions(predictionLog, schoolStatuses, today)`: the mutated
log and the number of entries resolved on this pass. -/
def resolvePredictions (predictionLog : List LogEntry)
    (statuses : String → Option String) (today : String) : List LogEntry × ℕ :=
  (predictionLog.map (resolveEntry statuses today),
   predictionLog.countP (fun e => decide (e.date = today) && e.actualStatus.isNone
     && (normalizeStatus (statusLookup statuses e.school)).isSome))

/-- The entry appended for one school by `saveTomorrowPredictions`: global
probabilities, blended 60/40 with the school's own historical rates when at
least 2 school matches exist, and the `max(delay, closure) ≥ 40` disruption
flag. -/
def tomorrowEntry (historicalData : List HistoricalRecord) (prediction : Prediction)
    (tempF windChill snowEstimate : ℚ) (weatherType : String) (tomorrow : String)
    (s : School) : LogEntry :=
  let schoolName := nameForCode s.code
  let historicalName := historicalNameForCode s.code
  let schoolPrediction := getSchoolHistoricalPrediction historicalData historicalName
    tempF windChill snowEstimate (some weatherType)
  let probs : ℚ × ℚ :=
    match schoolPrediction with
    | some sp =>
      if 2 ≤ sp.matchCount then
        (jsRound (prediction.delayProbability * 0.6 + sp.delayRate * 0.4),
         jsRound (prediction.closureProbability * 0.6 + sp.closureRate * 0.4))
      else (prediction.delayProbability, prediction.closureProbability)
    | none => (prediction.delayProbability, prediction.closureProbability)
  { date := tomorrow
    school := schoolName
    delayProbability := probs.1
    closureProbability := probs.2
    predictedDisruption := decide (40 ≤ max probs.1 probs.2)
    actualStatus := none
    correct := none
    source := none }

/-- The six entries `saveTomorrowPredictions` builds once its weather metrics
are derived from current conditions and forecast. -/
def tomorrowEntries (historicalData : List HistoricalRecord) (prediction : Prediction)
    (cc : Option CurrentConditions) (forecast : Option (List Period)) (pow016 : ℚ)
    (tomorrow : String) : List LogEntry :=
  let tempF := (cc.bind (fun c => c.temperature)).getD 32
  let windMph := numOr (cc.bind (fun c => c.windMph)) 0
  let windChill := windChillOf pow016 tempF windMph
  let snowEstimate := snowEstimateOf forecast
  let weatherType := weatherTypeOf forecast windChill
  INDIANA_COUNTY_SCHOOLS.map
    (tomorrowEntry historicalData prediction tempF windChill snowEstimate weatherType
      tomorrow)

/-- `saveTomorrowPredictions(predictionLog, prediction, currentConditions,
forecast, schoolStatuses, tomorrow)`: skip everything when any unresolved
entry for the target date exists, else append one pending entry per school;
returns the log and the number of entries saved. `schoolStatuses` is accepted
but unused, as in the source. -/
def saveTomorrowPredictions (predictionLog : List LogEntry) (prediction : Prediction)
    (cc : Option CurrentConditions) (forecast : Option (List Period))
    (_schoolStatuses : String → Option String) (tomorrow : String)
    (historicalData : List HistoricalRecord) (pow016 : ℚ) : List LogEntry × ℕ :=
  if predictionLog.any (fun e => e.date == tomorrow && e.actualStatus.isNone) then
    (predictionLog, 0)
  else
    let entries := tomorrowEntries historicalData prediction cc forecast pow016 tomorrow
    (predictionLog ++ entries, entries.length)

/-- The accuracy report of `getPredictionAccuracy`; fields absent from the
zero-resolved early return are `Option`s. -/
structure AccuracyStats where
  total : ℕ
  correct : ℕ
  accuracy : ℚ
  status : String
  streak : Option ℕ
  lastResolvedDate : Option String
  pendingCount : ℕ
  totalResolved : ℕ
  liveCount : Option ℕ
  backtestCount : Option ℕ
  deriving DecidableEq

/-- `getPredictionAccuracy()` over an explicit log: rolling accuracy over the
last 30 resolved entries, current streak, pending counts. -/
def getPredictionAccuracy (log : List LogEntry) : AccuracyStats :=
  let resolved := log.filter (fun e => !e.correct.isNone)
  let pending := log.filter (fun e => e.correct.isNone)
  if resolved.length = 0 then
    { total := 0
      correct := 0
      accuracy := 0
      status := if 0 < pending.length then "collecting" else "no-data"
      streak := none
      lastResolvedDate := none
      pendingCount := pending.length
      totalResolved := 0
      liveCount := none
      backtestCount := none }
  else
    let recent := resolved.drop (resolved.length - 30)
    let correctCount := (recent.filter (fun e => e.correct = some true)).length
    let streak := (resolved.reverse.takeWhile (fun e => e.correct = some true)).length
    let lastResolvedDate :=
      match resolved.getLast? with
      | some e => if e.date = "" then none else some e.date
      | none => none
    let liveCount := (recent.filter (fun e => !(e.source == some "backtest"))).length
    { total := recent.length
      correct := correctCount
      accuracy := jsRound (((correctCount : ℚ) / (recent.length : ℚ)) * 100)
      status := "active"
      streak := some streak
      lastResolvedDate := lastResolvedDate
      pendingCount := pending.length
      totalResolved := resolved.length
      liveCount := some liveCount
      backtestCount := some (recent.length - liveCount) }

/-- The `HistoricalRecord` literal built by `logWeatherData` (lines 286-294):
`temperature: tempF || 32`, `type: weatherType || (status !== 'open' ?
'unknown' : 'normal')`, `feelsLike: windChill || tempF || 32`. -/
def mkLogRecord (schoolName today normalizedStatus : String) (tempF windChill : Option ℚ)
    (snowfall : ℚ) (weatherType : Option String) : HistoricalRecord :=
  { school := schoolName
    date := today
    status := normalizedStatus
    temperature := numOr tempF 32
    snowfall := snowfall
    type := some (if strTruthy weatherType then weatherType.getD ""
      else if normalizedStatus ≠ "open" then "unknown" else "normal")
    feelsLike := if numTruthy windChill then windChill.getD 0 else numOr tempF 32 }

end Janus

namespace Janus

/-- Membership is preserved by the stable descending insertion. -/
theorem mem_insertDesc {α : Type} (key : α → ℤ) (x a : α) (l : List α) :
    a ∈ insertDesc key x l ↔ a = x ∨ a ∈ l := by
  induction l with
  | nil => simp [insertDesc]
  | cons y ys ih =>
    simp only [insertDesc]
    by_cases h : key x < key y
    · simp only [insertDesc, if_pos h, List.mem_cons, ih]
      tauto
    · simp only [insertDesc, if_neg h, List.mem_cons]

/-- Membership is preserved by the stable descending sort. -/
theorem mem_sortDesc {α : Type} (key : α → ℤ) (a : α) (l : List α) :
    a ∈ sortDesc key l ↔ a ∈ l := by
  induction l with
  | nil => simp [sortDesc]
  | cons x xs ih => simp [sortDesc, mem_insertDesc, ih]

/-- C4: `categorizeEvent` agrees with the spec's bucket rule everywhere, and on
the four quoted instances: `categorize(0,"clear") = "cold-only"`,
`categorize(4,"snow") = "heavy-snow"`, `categorize(2,"") = "light-snow"`,
`categorize(0,"ice") = "ice"`. -/
theorem categorizeEvent_matches_spec :
    (∀ (snow : ℚ) (type : Option String),
      categorizeEvent snow type = categorizeSpec snow type) ∧
    categorizeEvent 0 (some "clear") = "cold-only" ∧
    categorizeEvent 4 (some "snow") = "heavy-snow" ∧
    categorizeEvent 2 (some "") = "light-snow" ∧
    categorizeEvent 0 (some "ice") = "ice" := by
  refine ⟨fun snow type => ?_, by decide, by decide, by decide, by decide⟩
  unfold categorizeEvent categorizeSpec
  by_cases hi : (jsIncludes (jsToLower (strOrEmpty type)) "ice"
      || jsIncludes (jsToLower (strOrEmpty type)) "freezing") = true
  · simp [hi]
  · by_cases h3 : (3 : ℚ) ≤ snow
    · simp [hi, h3]
    · by_cases h1 : (1 : ℚ) ≤ snow
      · simp [hi, h3, h1]
      · simp [hi, h3, h1]

end Janus

namespace Janus

/-- The scorer never changes the underlying record. -/
theorem scoreRecord_record (temperature feelsLike snowfall : ℚ) (weatherType : Option String)
    (r : HistoricalRecord) :
    (scoreRecord temperature feelsLike snowfall weatherType r).record = r := by
  by_cases h : 5 < |r.snowfall - snowfall|
  · simp [scoreRecord, h]
  · simp [scoreRecord, h]

/-- A record that survives scoring without disqualification is within 5 inches
of the current snowfall. -/
theorem scoreRecord_qualified_snow (temperature feelsLike snowfall : ℚ)
    (weatherType : Option String) (r : HistoricalRecord)
    (h : (scoreRecord temperature feelsLike snowfall weatherType r).disqualified = false) :
    |r.snowfall - snowfall| ≤ 5 := by
  by_cases hgap : 5 < |r.snowfall - snowfall|
  · exfalso
    unfold scoreRecord at h
    simp [hgap] at h
  · exact le_of_not_lt hgap

/-- C5: a candidate whose snowfall differs from the current snowfall by more
than 5 inches has its similarity forced to 0, is marked disqualified, never
appears among the retained matches, and every retained match is within the
5-inch snowfall window. -/
theorem matcher_disqualifies_snow_gap (historicalData : List HistoricalRecord)
    (temperature feelsLike snowfall : ℚ) (weatherType : Option String)
    (r : HistoricalRecord) (_hmem : r ∈ historicalData)
    (hgap : 5 < |r.snowfall - snowfall|) :
    (scoreRecord temperature feelsLike snowfall weatherType r).similarity = 0 ∧
    (scoreRecord temperature feelsLike snowfall weatherType r).disqualified = true ∧
    (scoreRecord temperature feelsLike snowfall weatherType r) ∉
      historicalMatches historicalData temperature feelsLike snowfall weatherType ∧
    ∀ m ∈ historicalMatches historicalData temperature feelsLike snowfall weatherType,
      |m.record.snowfall - snowfall| ≤ 5 := by
  have hscore : scoreRecord temperature feelsLike snowfall weatherType r
      = ⟨r, 0, true⟩ := by
    unfold scoreRecord
    simp [hgap]
  have hwin : ∀ m ∈ historicalMatches historicalData temperature feelsLike snowfall
      weatherType, |m.record.snowfall - snowfall| ≤ 5 := by
    intro m hm
    have hm2 : m ∈ similarRecords historicalData temperature feelsLike snowfall
        weatherType := List.mem_of_mem_take hm
    unfold similarRecords at hm2
    rw [mem_sortDesc] at hm2
    rw [List.mem_filter] at hm2
    obtain ⟨hmap, hq⟩ := hm2
    obtain ⟨rec, _, hrfl⟩ := List.mem_map.1 hmap
    have hdq : m.disqualified = false := by
      cases hd : m.disqualified <;> simp [hd] at hq ⊢
    subst hrfl
    rw [scoreRecord_record]
    exact scoreRecord_qualified_snow temperature feelsLike snowfall weatherType rec hdq
  refine ⟨by rw [hscore], by rw [hscore], fun hin => ?_, hwin⟩
  have := hwin _ hin
  rw [scoreRecord_record] at this
  exact absurd this (not_le.2 hgap)

/-- Witness for C5 at a concrete record set: a 9-inch-snow day is disqualified
against a 0-inch current snowfall. -/
theorem matcher_disqualifies_snow_gap_witness :
    (scoreRecord 20 20 0 (some "snow")
      ⟨"Indiana", "2022-01-01", "closed", 20, 20, 9, some "snow"⟩).similarity = 0 ∧
    (scoreRecord 20 20 0 (some "snow")
      ⟨"Indiana", "2022-01-01", "closed", 20, 20, 9, some "snow"⟩).disqualified = true := by
  have h := matcher_disqualifies_snow_gap
    [⟨"Indiana", "2022-01-01", "closed", 20, 20, 9, some "snow"⟩] 20 20 0 (some "snow")
    ⟨"Indiana", "2022-01-01", "closed", 20, 20, 9, some "snow"⟩
    (by decide) (by decide)
  exact ⟨h.1, h.2.1⟩

end Janus

namespace Janus

/-- C8: the live scorer's tiered split and the backtest script's tiered split
are not extensionally equal: at probability 80 (inside [0, 95]) the live table
gives (closure, delay) = (48, 32) while the backtest table gives (44, 36). -/
theorem split_tables_differ :
    heuristicSplit 80 = (48, 32) ∧ simSplit 80 = (44, 36) ∧
    heuristicSplit 80 ≠ simSplit 80 ∧ (0 : ℚ) ≤ 80 ∧ (80 : ℚ) ≤ 95 := by
  decide

/-- Folding additions of non-negative contributions over a list keeps the
accumulator non-negative. -/
theorem foldl_add_nonneg {α : Type} (f : α → ℚ) (l : List α) (init : ℚ)
    (h0 : 0 ≤ init) (hf : ∀ a, 0 ≤ f a) :
    0 ≤ l.foldl (fun acc a => acc + f a) init := by
  induction l generalizing init with
  | nil => exact h0
  | cons a t ih => exact ih (init + f a) (add_nonneg h0 (hf a))

/-- Every severity bucket contributes non-negative points. -/
theorem severityPoints_nonneg (a : Alert) : 0 ≤ severityPoints a := by
  unfold severityPoints
  dsimp only
  split_ifs <;> norm_num

/-- The alert contribution is non-negative. -/
theorem alertPoints_nonneg (alerts : List Alert) : 0 ≤ alertPoints alerts :=
  foldl_add_nonneg severityPoints _ 0 le_rfl severityPoints_nonneg

/-- The temperature contribution is non-negative. -/
theorem tempPoints_nonneg (pow016 : ℚ) (cc : Option CurrentConditions) :
    0 ≤ tempPoints pow016 cc := by
  unfold tempPoints
  cases cc with
  | none => norm_num
  | some c =>
    obtain ⟨temp, wind⟩ := c
    cases temp with
    | none => norm_num
    | some tempF => dsimp only; split_ifs <;> norm_num

/-- The snow-amount tier contributes non-negative points. -/
theorem snowTierPoints_nonneg (o : Option ℕ) : 0 ≤ snowTierPoints o := by
  unfold snowTierPoints
  cases o with
  | none => norm_num
  | some amt => dsimp only; split_ifs <;> norm_num

/-- The snow-amount tier never exceeds 45 points. -/
theorem snowTierPoints_le_45 (o : Option ℕ) : snowTierPoints o ≤ 45 := by
  unfold snowTierPoints
  cases o with
  | none => norm_num
  | some amt => dsimp only; split_ifs <;> norm_num

/-- Every period contributes non-negative points. -/
theorem periodPoints_nonneg (desc : String) : 0 ≤ periodPoints desc := by
  unfold periodPoints
  refine add_nonneg (add_nonneg (snowTierPoints_nonneg _) ?_) ?_ <;> split_ifs <;> norm_num

/-- The forecast contribution is non-negative. -/
theorem forecastPoints_nonneg (forecast : Option (List Period)) :
    0 ≤ forecastPoints forecast := by
  unfold forecastPoints
  cases forecast with
  | none => norm_num
  | some periods =>
    dsimp only
    rw [List.foldl_map]
    exact foldl_add_nonneg _ _ 0 le_rfl (fun p => periodPoints_nonneg _)

/-- The heuristic score is non-negative. -/
theorem heuristicProbability_nonneg (pow016 : ℚ) (cc : Option CurrentConditions)
    (forecast : Option (List Period)) (alerts : List Alert) :
    0 ≤ heuristicProbability pow016 cc forecast alerts :=
  add_nonneg (add_nonneg (alertPoints_nonneg alerts) (tempPoints_nonneg pow016 cc))
    (forecastPoints_nonneg forecast)

/-- Rounding preserves non-negativity. -/
theorem jsRound_nonneg (q : ℚ) (h : 0 ≤ q) : 0 ≤ jsRound q := by
  unfold jsRound
  have : (0 : ℤ) ≤ ⌊q + 1/2⌋ := Int.le_floor.2 (by push_cast; linarith)
  exact_mod_cast this

/-- Every rate in an aggregate is non-negative. -/
theorem aggregateOf_rates_nonneg (retained : List ScoredRecord) :
    0 ≤ (aggregateOf retained).disruptionRate ∧
    0 ≤ (aggregateOf retained).closureRate ∧
    0 ≤ (aggregateOf retained).delayRate := by
  unfold aggregateOf
  refine ⟨?_, ?_, ?_⟩ <;>
    exact jsRound_nonneg _ (mul_nonneg (div_nonneg (by positivity) (by positivity)) (by norm_num))

/-- A successful global historical lookup returns a non-negative disruption
rate. -/
theorem getHistoricalPrediction_rate_nonneg (historicalData : List HistoricalRecord)
    (temperature feelsLike snowfall : ℚ) (weatherType : Option String)
    (h : HistoricalAggregate)
    (hh : getHistoricalPrediction historicalData temperature feelsLike snowfall weatherType
      = some h) : 0 ≤ h.disruptionRate := by
  unfold getHistoricalPrediction at hh
  by_cases h1 : historicalData = []
  · simp [h1] at hh
  · by_cases h2 : similarRecords historicalData temperature feelsLike snowfall weatherType = []
    · simp [h1, h2] at hh
    · simp only [h1, h2, if_false, Option.some.injEq] at hh
      rw [← hh]
      exact (aggregateOf_rates_nonneg _).1

/-- The historical lookup inside the scorer returns a non-negative disruption
rate. -/
theorem historicalMatchOf_rate_nonneg (historicalData : List HistoricalRecord)
    (pow016 : ℚ) (cc : Option CurrentConditions) (forecast : Option (List Period))
    (h : HistoricalAggregate)
    (hm : historicalMatchOf historicalData pow016 cc forecast = some h) :
    0 ≤ h.disruptionRate := by
  unfold historicalMatchOf at hm
  cases cc with
  | none => simp at hm
  | some c =>
    obtain ⟨temp, wind⟩ := c
    cases temp with
    | none => simp at hm
    | some tempF =>
      dsimp only at hm
      exact getHistoricalPrediction_rate_nonneg _ _ _ _ _ _ hm

/-- C3: for every combination of inputs — any historical record set, any value
of the transcendental wind factor, any current conditions, forecast, hourly
forecast and alert list — the returned probability lies in [0, 95]; 100 is
never reported. -/
theorem probability_in_range (historicalData : List HistoricalRecord) (pow016 : ℚ)
    (cc : Option CurrentConditions) (forecast : Option (List Period))
    (hourlyForecast : Option Unit) (alerts : List Alert) :
    0 ≤ (calculateDelayProbability historicalData pow016 cc forecast hourlyForecast
        alerts).probability ∧
    (calculateDelayProbability historicalData pow016 cc forecast hourlyForecast
        alerts).probability ≤ 95 := by
  have hheur : 0 ≤ heuristicProbability pow016 cc forecast alerts :=
    heuristicProbability_nonneg pow016 cc forecast alerts
  constructor
  · simp only [calculateDelayProbability]
    rcases hm : historicalMatchOf historicalData pow016 cc forecast with _ | h
    · exact le_min hheur (by norm_num)
    · refine le_min (jsRound_nonneg _ ?_) (by norm_num)
      have hrate := historicalMatchOf_rate_nonneg historicalData pow016 cc forecast h hm
      have h6 : (0 : ℚ) ≤ 0.6 := by norm_num
      have h4 : (0 : ℚ) ≤ 0.4 := by norm_num
      exact add_nonneg (mul_nonneg hheur h6) (mul_nonneg hrate h4)
  · simp only [calculateDelayProbability]
    exact min_le_right _ _

end Janus

namespace Janus

/-- C1 (amended): when a historical aggregate exists the returned probability
is the blend `round(heuristic·0.6 + disruptionRate·0.4)` clamped to at most 95
(the claim's formula without the clamp fails once the blend exceeds 95), and
when the aggregate's disruption rate is positive the split applies the
closure/delay rate ratios to the clamped probability. -/
theorem blend_and_split_formula (historicalData : List HistoricalRecord) (pow016 : ℚ)
    (cc : Option CurrentConditions) (forecast : Option (List Period))
    (hourlyForecast : Option Unit) (alerts : List Alert) (h : HistoricalAggregate)
    (hm : historicalMatchOf historicalData pow016 cc forecast = some h) :
    (calculateDelayProbability historicalData pow016 cc forecast hourlyForecast
        alerts).probability
      = min (jsRound (heuristicProbability pow016 cc forecast alerts * 0.6
          + h.disruptionRate * 0.4)) 95 ∧
    (0 < h.disruptionRate →
      (calculateDelayProbability historicalData pow016 cc forecast hourlyForecast
          alerts).closureProbability
        = jsRound ((calculateDelayProbability historicalData pow016 cc forecast
            hourlyForecast alerts).probability * (h.closureRate / h.disruptionRate)) ∧
      (calculateDelayProbability historicalData pow016 cc forecast hourlyForecast
          alerts).delayProbability
        = jsRound ((calculateDelayProbability historicalData pow016 cc forecast
            hourlyForecast alerts).probability * (h.delayRate / h.disruptionRate))) := by
  refine ⟨?_, fun hdr => ⟨?_, ?_⟩⟩
  · simp only [calculateDelayProbability, hm]
  · simp only [calculateDelayProbability, hm, if_pos hdr]
  · simp only [calculateDelayProbability, hm, if_pos hdr]

/-- Counterexample to C1 as stated: with two extreme winter alerts the
heuristic reaches 100, a perfectly matching all-closed historical record gives
disruptionRate 100, the blend formula yields 100, but the returned probability
is the clamped 95. -/
theorem blend_formula_clamp_counterexample :
    heuristicProbability 1 (some ⟨some 40, some 0⟩) none
      [⟨some "Winter Storm Warning", some "Extreme"⟩,
       ⟨some "Extreme Cold Warning", some "Extreme"⟩] = 100 ∧
    historicalMatchOf [⟨"Indiana", "2024-01-05", "closed", 40, 40, 0, some ""⟩] 1
      (some ⟨some 40, some 0⟩) none = some ⟨1, 1, 0, 100, 100, 0⟩ ∧
    (calculateDelayProbability [⟨"Indiana", "2024-01-05", "closed", 40, 40, 0, some ""⟩]
      1 (some ⟨some 40, some 0⟩) none none
      [⟨some "Winter Storm Warning", some "Extreme"⟩,
       ⟨some "Extreme Cold Warning", some "Extreme"⟩]).probability = 95 ∧
    jsRound ((100 : ℚ) * 0.6 + 100 * 0.4) = 100 ∧ (95 : ℚ) ≠ 100 := by
  decide

/-- Witness for C1 at the spec's own instance: heuristic 50 with a historical
aggregate of rates 60/40/20 produces probability 54, closure 36, delay 18. -/
theorem blend_and_split_formula_witness :
    (calculateDelayProbability
      [⟨"Indiana", "2024-01-01", "closed", 10, 10, 0, some ""⟩,
       ⟨"Indiana", "2024-01-02", "closed", 10, 10, 0, some ""⟩,
       ⟨"Indiana", "2024-01-03", "delay", 10, 10, 0, some ""⟩,
       ⟨"Indiana", "2024-01-04", "open", 10, 10, 0, some ""⟩,
       ⟨"Indiana", "2024-01-05", "open", 10, 10, 0, some ""⟩] 1
      (some ⟨some 10, some 0⟩) none none
      [⟨some "Winter Weather Advisory", some "Severe"⟩]).probability = 54 ∧
    (calculateDelayProbability
      [⟨"Indiana", "2024-01-01", "closed", 10, 10, 0, some ""⟩,
       ⟨"Indiana", "2024-01-02", "closed", 10, 10, 0, some ""⟩,
       ⟨"Indiana", "2024-01-03", "delay", 10, 10, 0, some ""⟩,
       ⟨"Indiana", "2024-01-04", "open", 10, 10, 0, some ""⟩,
       ⟨"Indiana", "2024-01-05", "open", 10, 10, 0, some ""⟩] 1
      (some ⟨some 10, some 0⟩) none none
      [⟨some "Winter Weather Advisory", some "Severe"⟩]).closureProbability = 36 ∧
    (calculateDelayProbability
      [⟨"Indiana", "2024-01-01", "closed", 10, 10, 0, some ""⟩,
       ⟨"Indiana", "2024-01-02", "closed", 10, 10, 0, some ""⟩,
       ⟨"Indiana", "2024-01-03", "delay", 10, 10, 0, some ""⟩,
       ⟨"Indiana", "2024-01-04", "open", 10, 10, 0, some ""⟩,
       ⟨"Indiana", "2024-01-05", "open", 10, 10, 0, some ""⟩] 1
      (some ⟨some 10, some 0⟩) none none
      [⟨some "Winter Weather Advisory", some "Severe"⟩]).delayProbability = 18 := by
  have h := blend_and_split_formula
    [⟨"Indiana", "2024-01-01", "closed", 10, 10, 0, some ""⟩,
     ⟨"Indiana", "2024-01-02", "closed", 10, 10, 0, some ""⟩,
     ⟨"Indiana", "2024-01-03", "delay", 10, 10, 0, some ""⟩,
     ⟨"Indiana", "2024-01-04", "open", 10, 10, 0, some ""⟩,
     ⟨"Indiana", "2024-01-05", "open", 10, 10, 0, some ""⟩] 1
    (some ⟨some 10, some 0⟩) none none
    [⟨some "Winter Weather Advisory", some "Severe"⟩] ⟨5, 2, 1, 60, 40, 20⟩ (by decide)
  have h2 := h.2 (by norm_num)
  refine ⟨?_, ?_, ?_⟩
  · rw [h.1]; decide
  · rw [h2.1, h.1]; decide
  · rw [h2.2, h.1]; decide

end Janus

namespace Janus

/-- With an empty record set the historical lookup never fires. -/
theorem historicalMatchOf_nil (pow016 : ℚ) (cc : Option CurrentConditions)
    (forecast : Option (List Period)) :
    historicalMatchOf [] pow016 cc forecast = none := by
  unfold historicalMatchOf
  cases cc with
  | none => rfl
  | some c =>
    obtain ⟨temp, wind⟩ := c
    cases temp with
    | none => rfl
    | some tempF => simp [getHistoricalPrediction]

/-- Summing pointwise-dominated lists from dominated accumulators preserves
the order. -/
theorem foldl_add_le {l1 l2 : List ℚ} (h : List.Forall₂ (· ≤ ·) l1 l2) :
    ∀ init1 init2 : ℚ, init1 ≤ init2 →
      l1.foldl (· + ·) init1 ≤ l2.foldl (· + ·) init2 := by
  induction h with
  | nil => exact fun _ _ hi => hi
  | cons hab _ ih => exact fun i1 i2 hi => ih _ _ (add_le_add hi hab)

/-- A pointwise relation that dominates under `g` survives `take`/`map`. -/
theorem forall2_take_map {α : Type} (R : α → α → Prop) (g : α → ℚ)
    (hR : ∀ p q, R p q → g p ≤ g q) :
    ∀ (n : ℕ) {l1 l2 : List α}, List.Forall₂ R l1 l2 →
      List.Forall₂ (· ≤ ·) ((l1.take n).map g) ((l2.take n).map g) := by
  intro n l1 l2 h
  induction h generalizing n with
  | nil => simp
  | cons hab htail ih =>
    cases n with
    | zero => simp
    | succ m =>
      simp only [List.take_succ_cons, List.map_cons]
      exact List.Forall₂.cons (hR _ _ hab) (ih m)

/-- A period whose prose is unchanged, or whose explicit snow amount grows to
at least 6 inches with the ice keywords unchanged, never contributes fewer
points. -/
theorem periodPoints_rel_mono (p q : Period)
    (h : periodDesc p = periodDesc q ∨
      ∃ s1 s2 : ℕ, parseSnowAmount (periodDesc p) = some s1 ∧
        parseSnowAmount (periodDesc q) = some s2 ∧ s1 < s2 ∧ 6 ≤ s2 ∧
        iceMentioned (periodDesc p) = iceMentioned (periodDesc q) ∧
        jsIncludes (periodDesc p) "snow" = jsIncludes (periodDesc q) "snow" ∧
        jsIncludes (periodDesc p) "flurries" = jsIncludes (periodDesc q) "flurries" ∧
        jsIncludes (periodDesc p) "heavy" = jsIncludes (periodDesc q) "heavy" ∧
        jsIncludes (periodDesc p) "light" = jsIncludes (periodDesc q) "light") :
    periodPoints (periodDesc p) ≤ periodPoints (periodDesc q) := by
  rcases h with heq | ⟨s1, s2, hp1, hp2, _, h6, hice, _, _, _, _⟩
  · rw [heq]
  · unfold periodPoints
    simp only [hp1, hp2, hice]
    have htier1 : snowTierPoints (some s1) ≤ 45 := snowTierPoints_le_45 _
    have htier2 : snowTierPoints (some s2) = 45 := by
      unfold snowTierPoints
      simp [h6]
    rw [htier2]
    have hgen : ∀ b : Bool, (if (some s1 = none ∧ b = true) then (0:ℚ) else 0)
      = 0 := by intro b; simp
    simp only [reduceCtorEq, false_and, if_false]
    exact add_le_add (add_le_add htier1 le_rfl) le_rfl

/-- The forecast contribution is monotone under the pointwise period
relation. -/
theorem forecastPoints_mono (ps1 ps2 : List Period)
    (h : List.Forall₂ (fun p q => periodPoints (periodDesc p) ≤ periodPoints (periodDesc q))
      ps1 ps2) :
    forecastPoints (some ps1) ≤ forecastPoints (some ps2) := by
  unfold forecastPoints
  exact foldl_add_le
    (forall2_take_map _ (fun p => periodPoints (periodDesc p)) (fun _ _ hpq => hpq) 4 h)
    0 0 le_rfl

/-- C9: with no historical records and all other inputs fixed, growing a
period's explicit snow amount to `s2 ≥ 6` inches (the other text features
unchanged) never lowers the returned probability: the snow tier is
non-decreasing and the final clamp preserves the order. -/
theorem probability_monotone_in_snow (pow016 : ℚ) (cc : Option CurrentConditions)
    (hourlyForecast : Option Unit) (alerts : List Alert) (ps1 ps2 : List Period)
    (hrel : List.Forall₂ (fun p q => periodDesc p = periodDesc q ∨
      ∃ s1 s2 : ℕ, parseSnowAmount (periodDesc p) = some s1 ∧
        parseSnowAmount (periodDesc q) = some s2 ∧ s1 < s2 ∧ 6 ≤ s2 ∧
        iceMentioned (periodDesc p) = iceMentioned (periodDesc q) ∧
        jsIncludes (periodDesc p) "snow" = jsIncludes (periodDesc q) "snow" ∧
        jsIncludes (periodDesc p) "flurries" = jsIncludes (periodDesc q) "flurries" ∧
        jsIncludes (periodDesc p) "heavy" = jsIncludes (periodDesc q) "heavy" ∧
        jsIncludes (periodDesc p) "light" = jsIncludes (periodDesc q) "light") ps1 ps2) :
    (calculateDelayProbability [] pow016 cc (some ps1) hourlyForecast alerts).probability ≤
    (calculateDelayProbability [] pow016 cc (some ps2) hourlyForecast alerts).probability := by
  have hfc : forecastPoints (some ps1) ≤ forecastPoints (some ps2) :=
    forecastPoints_mono ps1 ps2
      (List.Forall₂.imp (fun p q hpq => periodPoints_rel_mono p q hpq) hrel)
  simp only [calculateDelayProbability, historicalMatchOf_nil]
  refine min_le_min ?_ le_rfl
  unfold heuristicProbability
  exact add_le_add le_rfl hfc

/-- Witness for C9: raising an explicit forecast amount from 3 to 7 inches
(same prose otherwise) does not lower the probability. -/
theorem probability_monotone_in_snow_witness :
    (calculateDelayProbability [] 1 none
      (some [⟨some "Snow expected with accumulation of 3 inches.", none⟩]) none
      []).probability ≤
    (calculateDelayProbability [] 1 none
      (some [⟨some "Snow expected with accumulation of 7 inches.", none⟩]) none
      []).probability :=
  probability_monotone_in_snow 1 none none [] _ _
    (List.Forall₂.cons
      (Or.inr ⟨3, 7, by decide, by decide, by decide, by decide, by decide, by decide,
        by decide, by decide, by decide⟩)
      List.Forall₂.nil)

end Janus

namespace Janus

/-- An entry that is not (dated today and pending) is left untouched. -/
theorem resolveEntry_skip (statuses : String → Option String) (today : String)
    (e : LogEntry) (h : ¬(e.date = today ∧ e.actualStatus = none)) :
    resolveEntry statuses today e = e := by
  unfold resolveEntry
  rw [if_neg h]

/-- A pending entry whose actual status does not normalize is left untouched. -/
theorem resolveEntry_unnormalizable (statuses : String → Option String) (today : String)
    (e : LogEntry) (h1 : e.date = today) (h2 : e.actualStatus = none)
    (h3 : normalizeStatus (statusLookup statuses e.school) = none) :
    resolveEntry statuses today e = e := by
  unfold resolveEntry
  rw [if_pos ⟨h1, h2⟩, h3]

/-- A pending entry dated today with a normalizable actual status is resolved:
`actualStatus` is set and `correct` compares the prediction with
`actual ≠ open`; the other fields are untouched. -/
theorem resolveEntry_resolves (statuses : String → Option String) (today : String)
    (e : LogEntry) (a : String) (h1 : e.date = today) (h2 : e.actualStatus = none)
    (h3 : normalizeStatus (statusLookup statuses e.school) = some a) :
    resolveEntry statuses today e =
      { e with actualStatus := some a
               correct := some (e.predictedDisruption == decide (a ≠ "open")) } := by
  unfold resolveEntry
  rw [if_pos ⟨h1, h2⟩, h3]

/-- Resolution is idempotent entry by entry. -/
theorem resolveEntry_idem (statuses : String → Option String) (today : String)
    (e : LogEntry) :
    resolveEntry statuses today (resolveEntry statuses today e)
      = resolveEntry statuses today e := by
  by_cases hp : e.date = today ∧ e.actualStatus = none
  · rcases hn : normalizeStatus (statusLookup statuses e.school) with _ | a
    · rw [resolveEntry_unnormalizable statuses today e hp.1 hp.2 hn,
        resolveEntry_unnormalizable statuses today e hp.1 hp.2 hn]
    · rw [resolveEntry_resolves statuses today e a hp.1 hp.2 hn]
      exact resolveEntry_skip statuses today _ (by simp)
  · rw [resolveEntry_skip statuses today e hp, resolveEntry_skip statuses today e hp]

/-- After one pass no entry still counts as resolvable. -/
theorem resolveEntry_not_resolvable (statuses : String → Option String) (today : String)
    (e : LogEntry) :
    (decide ((resolveEntry statuses today e).date = today)
      && (resolveEntry statuses today e).actualStatus.isNone
      && (normalizeStatus (statusLookup statuses
            (resolveEntry statuses today e).school)).isSome) = false := by
  by_cases hp : e.date = today ∧ e.actualStatus = none
  · rcases hn : normalizeStatus (statusLookup statuses e.school) with _ | a
    · rw [resolveEntry_unnormalizable statuses today e hp.1 hp.2 hn, hn]
      simp
    · rw [resolveEntry_resolves statuses today e a hp.1 hp.2 hn]
      simp
  · rw [resolveEntry_skip statuses today e hp]
    rw [not_and_or] at hp
    rcases hp with hd | hs
    · simp [hd]
    · have : e.actualStatus.isNone = false := by
        cases h : e.actualStatus
        · exact absurd h hs
        · simp
      simp [this]

/-- C6: resolution is one-way and idempotent. An entry is mutated only when it
is dated today, pending, and its actual status normalizes; resolution then
sets `actualStatus` and `correct` exactly once; unnormalizable entries stay
pending with both fields null; and re-running resolution over an
already-resolved log changes nothing and resolves zero entries. -/
theorem resolvePredictions_one_way (statuses : String → Option String) (today : String)
    (log : List LogEntry) :
    (∀ e : LogEntry, e.actualStatus ≠ none → resolveEntry statuses today e = e) ∧
    (∀ e : LogEntry, e.date ≠ today → resolveEntry statuses today e = e) ∧
    (∀ e : LogEntry, e.date = today → e.actualStatus = none →
      normalizeStatus (statusLookup statuses e.school) = none →
      resolveEntry statuses today e = e ∧
      (resolveEntry statuses today e).actualStatus = none ∧
      (resolveEntry statuses today e).correct = e.correct) ∧
    (∀ (e : LogEntry) (a : String), e.date = today → e.actualStatus = none →
      normalizeStatus (statusLookup statuses e.school) = some a →
      (resolveEntry statuses today e).actualStatus = some a ∧
      (resolveEntry statuses today e).correct
        = some (e.predictedDisruption == decide (a ≠ "open")) ∧
      resolveEntry statuses today (resolveEntry statuses today e)
        = resolveEntry statuses today e) ∧
    (resolvePredictions log statuses today).1 = log.map (resolveEntry statuses today) ∧
    resolvePredictions (resolvePredictions log statuses today).1 statuses today
      = ((resolvePredictions log statuses today).1, 0) := by
  refine ⟨?_, ?_, ?_, ?_, rfl, ?_⟩
  · intro e he
    exact resolveEntry_skip statuses today e (fun hc => he hc.2)
  · intro e he
    exact resolveEntry_skip statuses today e (fun hc => he hc.1)
  · intro e h1 h2 h3
    rw [resolveEntry_unnormalizable statuses today e h1 h2 h3]
    exact ⟨rfl, h2, rfl⟩
  · intro e a h1 h2 h3
    rw [resolveEntry_resolves statuses today e a h1 h2 h3]
    exact ⟨rfl, rfl, by
      rw [← resolveEntry_resolves statuses today e a h1 h2 h3]
      exact resolveEntry_idem statuses today e⟩
  · unfold resolvePredictions
    dsimp only
    rw [Prod.mk.injEq]
    constructor
    · rw [List.map_map]
      exact List.map_congr_left (fun e _ => resolveEntry_idem statuses today e)
    · rw [List.countP_map, List.countP_eq_zero]
      intro e _
      simp only [Function.comp]
      rw [resolveEntry_not_resolvable statuses today e]
      simp

/-- Witness for C6 at a concrete log: a resolved entry stays fixed, a pending
entry dated today with a closed actual status is resolved to correct, a
pending entry with no scraped status stays pending. -/
theorem resolvePredictions_one_way_witness :
    resolveEntry (fun c => if c = "IASD" then some "Closed" else none) "2026-01-10"
      ⟨"2026-01-10", "Indiana", 50, 50, true, some "open", some false, none⟩
      = ⟨"2026-01-10", "Indiana", 50, 50, true, some "open", some false, none⟩ ∧
    (resolveEntry (fun c => if c = "IASD" then some "Closed" else none) "2026-01-10"
      ⟨"2026-01-10", "Indiana", 60, 20, true, none, none, none⟩).actualStatus
      = some "closed" ∧
    (resolveEntry (fun c => if c = "IASD" then some "Closed" else none) "2026-01-10"
      ⟨"2026-01-10", "Indiana", 60, 20, true, none, none, none⟩).correct = some true ∧
    (resolveEntry (fun c => if c = "IASD" then some "Closed" else none) "2026-01-10"
      ⟨"2026-01-10", "Homer-Center", 10, 10, false, none, none, none⟩
      = ⟨"2026-01-10", "Homer-Center", 10, 10, false, none, none, none⟩) := by
  have h := resolvePredictions_one_way
    (fun c => if c = "IASD" then some "Closed" else none) "2026-01-10" []
  refine ⟨h.1 _ (by decide), ?_, ?_, ?_⟩
  · exact (h.2.2.2.1 _ "closed" rfl rfl (by decide)).1
  · have hc := (h.2.2.2.1
      (⟨"2026-01-10", "Indiana", 60, 20, true, none, none, none⟩ : LogEntry)
      "closed" rfl rfl (by decide)).2.1
    rw [hc]
    decide
  · exact (h.2.2.1 _ rfl rfl (by decide)).1

end Janus

namespace Janus

/-- C7: with zero resolved entries the report is "collecting" (some pending)
or "no-data" (none) with accuracy 0 and no division performed; with resolved
entries it averages over the most recent `min(30, totalResolved)` entries, a
non-zero denominator, as `round(100·correct/total)`. -/
theorem accuracy_report (log : List LogEntry) :
    ((log.filter (fun e => !e.correct.isNone)) = [] →
      (getPredictionAccuracy log).accuracy = 0 ∧
      (getPredictionAccuracy log).total = 0 ∧
      (getPredictionAccuracy log).status =
        (if log.filter (fun e => e.correct.isNone) = [] then "no-data"
         else "collecting")) ∧
    ((log.filter (fun e => !e.correct.isNone)) ≠ [] →
      (getPredictionAccuracy log).total
        = min 30 (log.filter (fun e => !e.correct.isNone)).length ∧
      0 < min 30 (log.filter (fun e => !e.correct.isNone)).length ∧
      (getPredictionAccuracy log).accuracy
        = jsRound (100 * ((getPredictionAccuracy log).correct : ℚ)
            / ((getPredictionAccuracy log).total : ℚ)) ∧
      (getPredictionAccuracy log).status = "active") := by
  constructor
  · intro hres
    have hlen0 : (log.filter (fun e => !e.correct.isNone)).length = 0 := by
      rw [hres]
      rfl
    simp only [getPredictionAccuracy]
    rw [if_pos hlen0]
    refine ⟨rfl, rfl, ?_⟩
    by_cases hp : log.filter (fun e => e.correct.isNone) = []
    · simp [hp]
    · simp [hp, List.length_pos.2 hp]
  · intro hres
    have hlen : (log.filter (fun e => !e.correct.isNone)).length ≠ 0 :=
      fun h => hres (List.length_eq_zero.1 h)
    simp only [getPredictionAccuracy, if_neg hlen]
    refine ⟨?_, ?_, ?_, trivial⟩
    · rw [List.length_drop]
      omega
    · omega
    · congr 1
      ring

/-- Witness for C7: a log of one pending entry reports "collecting" with
accuracy 0; a log of three resolved entries (2 correct) reports
round(100·2/3) = 67 over a window of 3. -/
theorem accuracy_report_witness :
    (getPredictionAccuracy
      [⟨"2026-01-11", "Indiana", 50, 50, true, none, none, none⟩]).status
      = "collecting" ∧
    (getPredictionAccuracy
      [⟨"2026-01-11", "Indiana", 50, 50, true, none, none, none⟩]).accuracy = 0 ∧
    (getPredictionAccuracy
      [⟨"2026-01-08", "Indiana", 50, 50, true, some "closed", some true, none⟩,
       ⟨"2026-01-09", "Indiana", 50, 50, true, some "open", some false, none⟩,
       ⟨"2026-01-10", "Indiana", 50, 50, true, some "closed", some true, none⟩]).accuracy
      = 67 ∧
    (getPredictionAccuracy
      [⟨"2026-01-08", "Indiana", 50, 50, true, some "closed", some true, none⟩,
       ⟨"2026-01-09", "Indiana", 50, 50, true, some "open", some false, none⟩,
       ⟨"2026-01-10", "Indiana", 50, 50, true, some "closed", some true, none⟩]).total
      = 3 ∧
    (getPredictionAccuracy
      [⟨"2026-01-08", "Indiana", 50, 50, true, some "closed", some true, none⟩,
       ⟨"2026-01-09", "Indiana", 50, 50, true, some "open", some false, none⟩,
       ⟨"2026-01-10", "Indiana", 50, 50, true, some "closed", some true, none⟩]).status
      = "active" := by
  have h0 := (accuracy_report
    [⟨"2026-01-11", "Indiana", 50, 50, true, none, none, none⟩]).1 (by decide)
  have h1 := (accuracy_report
    [⟨"2026-01-08", "Indiana", 50, 50, true, some "closed", some true, none⟩,
     ⟨"2026-01-09", "Indiana", 50, 50, true, some "open", some false, none⟩,
     ⟨"2026-01-10", "Indiana", 50, 50, true, some "closed", some true, none⟩]).2
    (by decide)
  refine ⟨?_, h0.1, ?_, ?_, h1.2.2.2⟩
  · rw [h0.2.2]
    decide
  · rw [h1.2.2.1]
    decide
  · rw [h1.1]
    decide

/-- C2 (amended): `saveTomorrowPredictions` skips globally — one unresolved
entry for the target date, for any school, suppresses the whole day's batch —
otherwise it appends exactly one pending entry per school, each flagged
disrupted exactly when `max(delayProbability, closureProbability) ≥ 40`. -/
theorem saveTomorrow_skip_is_global (predictionLog : List LogEntry)
    (prediction : Prediction) (cc : Option CurrentConditions)
    (forecast : Option (List Period)) (statuses : String → Option String)
    (tomorrow : String) (historicalData : List HistoricalRecord) (pow016 : ℚ) :
    ((∃ e ∈ predictionLog, e.date = tomorrow ∧ e.actualStatus = none) →
      saveTomorrowPredictions predictionLog prediction cc forecast statuses tomorrow
        historicalData pow016 = (predictionLog, 0)) ∧
    ((¬∃ e ∈ predictionLog, e.date = tomorrow ∧ e.actualStatus = none) →
      saveTomorrowPredictions predictionLog prediction cc forecast statuses tomorrow
        historicalData pow016
        = (predictionLog
            ++ tomorrowEntries historicalData prediction cc forecast pow016 tomorrow,
           6)) ∧
    (∀ entry ∈ tomorrowEntries historicalData prediction cc forecast pow016 tomorrow,
      entry.date = tomorrow ∧ entry.actualStatus = none ∧ entry.correct = none ∧
      entry.predictedDisruption
        = decide (40 ≤ max entry.delayProbability entry.closureProbability)) := by
  have hcond : predictionLog.any (fun e => e.date == tomorrow && e.actualStatus.isNone)
      = true ↔ ∃ e ∈ predictionLog, e.date = tomorrow ∧ e.actualStatus = none := by
    simp only [List.any_eq_true, Bool.and_eq_true, beq_iff_eq,
      Option.isNone_iff_eq_none]
  refine ⟨?_, ?_, ?_⟩
  · intro h
    unfold saveTomorrowPredictions
    rw [if_pos (hcond.2 h)]
  · intro h
    unfold saveTomorrowPredictions
    rw [if_neg (fun hc => h (hcond.1 hc))]
    rfl
  · intro entry hentry
    unfold tomorrowEntries at hentry
    obtain ⟨s, _, hrfl⟩ := List.mem_map.1 hentry
    subst hrfl
    exact ⟨rfl, rfl, rfl, rfl⟩

/-- Counterexample to C2 as stated: an unresolved entry for `Indiana` alone
blocks the whole batch — `Homer-Center` has no entry for the date before the
call, yet none is appended for it (and zero entries are saved). -/
theorem saveTomorrow_per_school_counterexample :
    (([⟨"2026-01-15", "Indiana", 50, 50, true, none, none, none⟩] : List LogEntry).filter
      (fun e => e.school == "Homer-Center")).length = 0 ∧
    saveTomorrowPredictions
      [⟨"2026-01-15", "Indiana", 50, 50, true, none, none, none⟩]
      ⟨50, 30, 20, "moderate", none⟩ none none (fun _ => none) "2026-01-15" [] 1
      = ([⟨"2026-01-15", "Indiana", 50, 50, true, none, none, none⟩], 0) ∧
    (((saveTomorrowPredictions
      [⟨"2026-01-15", "Indiana", 50, 50, true, none, none, none⟩]
      ⟨50, 30, 20, "moderate", none⟩ none none (fun _ => none) "2026-01-15" [] 1).1).filter
      (fun e => e.school == "Homer-Center")).length = 0 := by
  decide

/-- Witness for C2 (amended): the blocked call returns the log unchanged with
0 saved; an unblocked call saves 6 entries. -/
theorem saveTomorrow_skip_is_global_witness :
    saveTomorrowPredictions
      [⟨"2026-01-15", "Indiana", 50, 50, true, none, none, none⟩]
      ⟨50, 30, 20, "moderate", none⟩ none none (fun _ => none) "2026-01-15" [] 1
      = ([⟨"2026-01-15", "Indiana", 50, 50, true, none, none, none⟩], 0) ∧
    (saveTomorrowPredictions [] ⟨50, 30, 20, "moderate", none⟩ none none
      (fun _ => none) "2026-01-15" [] 1).2 = 6 := by
  have hA := (saveTomorrow_skip_is_global
    [⟨"2026-01-15", "Indiana", 50, 50, true, none, none, none⟩]
    ⟨50, 30, 20, "moderate", none⟩ none none (fun _ => none) "2026-01-15" [] 1).1
    (by decide)
  have hB := (saveTomorrow_skip_is_global [] ⟨50, 30, 20, "moderate", none⟩ none none
    (fun _ => none) "2026-01-15" [] 1).2.1 (by decide)
  exact ⟨hA, by rw [hB]⟩

/-- The falsy-or default `x || d` with a non-zero default is never zero. -/
theorem numOr_ne_zero (o : Option ℚ) (d : ℚ) (hd : d ≠ 0) : numOr o d ≠ 0 := by
  unfold numOr numTruthy
  cases o with
  | none => simpa using hd
  | some q =>
    by_cases hq : q = 0
    · simpa [hq] using hd
    · simpa [hq] using hq

/-- C10: in the record built by `logWeatherData`, a null or exactly-zero
temperature is stored as 32, a null or exactly-zero wind chill makes
`feelsLike` fall back to `tempF || 32`, and consequently a genuine 0°F reading
can never be stored in either field. -/
theorem logRecord_falsy_defaults (schoolName today normalizedStatus : String)
    (tempF windChill : Option ℚ) (snowfall : ℚ) (weatherType : Option String) :
    ((tempF = none ∨ tempF = some 0) →
      (mkLogRecord schoolName today normalizedStatus tempF windChill snowfall
        weatherType).temperature = 32) ∧
    ((windChill = none ∨ windChill = some 0) →
      (mkLogRecord schoolName today normalizedStatus tempF windChill snowfall
        weatherType).feelsLike = numOr tempF 32) ∧
    (mkLogRecord schoolName today normalizedStatus tempF windChill snowfall
      weatherType).temperature ≠ 0 ∧
    (mkLogRecord schoolName today normalizedStatus tempF windChill snowfall
      weatherType).feelsLike ≠ 0 := by
  refine ⟨?_, ?_, ?_, ?_⟩
  · rintro (h | h) <;> simp [mkLogRecord, numOr, numTruthy, h]
  · rintro (h | h) <;> simp [mkLogRecord, numTruthy, h]
  · exact numOr_ne_zero tempF 32 (by norm_num)
  · simp only [mkLogRecord]
    cases windChill with
    | none => simpa [numTruthy] using numOr_ne_zero tempF 32 (by norm_num)
    | some q =>
      by_cases hq : q = 0
      · simp only [numTruthy, hq]
        simpa using numOr_ne_zero tempF 32 (by norm_num)
      · simp only [numTruthy]
        simpa [hq] using hq

/-- Witness for C10: an exact 0°F temperature and 0°F wind chill are both
replaced by 32 in the stored record. -/
theorem logRecord_falsy_defaults_witness :
    (mkLogRecord "Indiana" "2026-01-10" "closed" (some 0) (some 0) 0
      none).temperature = 32 ∧
    (mkLogRecord "Indiana" "2026-01-10" "closed" (some 0) (some 0) 0
      none).feelsLike = 32 := by
  have h := logRecord_falsy_defaults "Indiana" "2026-01-10" "closed" (some 0) (some 0) 0
    none
  refine ⟨h.1 (Or.inr rfl), ?_⟩
  rw [h.2.1 (Or.inr rfl)]
  decide

end Janus
